import Mathlib

/-!
# ESP32 LED controller over HTTP: a shallow embedding

Two programs live in the repository:

* `Q2.1/src/main.c`: a station-mode client that joins a network and performs one
  HTTP GET, printing every received chunk (`namespace Q2_1`);
* `Q2.2/src/main.c`: an access-point node that lazily starts an HTTP server whose
  `/led` endpoint drives the LED on `GPIO_NUM_2` (`namespace Q2_2`).

Conventions of the embedding:

* a C string is a Lean `String` (the characters before the terminating NUL);
  a possibly-NULL `char *` is an `Option String`, a possibly-NULL `cJSON *` an
  `Option cJSON`;
* dereferencing a NULL pointer is an explicit `Fault`, so a handler that can do
  so returns `Except Fault _`;
* functions of ESP-IDF, cJSON and libc are not part of the repository. The small
  ones are modelled after their documented behaviour; the JSON parser, the JSON
  printer and the socket read are fields of `Platform`; the result of
  `httpd_start` is an oracle indexed by the number of earlier calls;
* heap allocation is assumed to succeed and `cJSON_Delete` has no observable effect.
-/

set_option linter.unusedVariables false

namespace ESP

/-- The type `esp_err_t` of ESP-IDF. -/
abbrev esp_err_t := Int

/-- Value `ESP_OK` of `esp_err.h`. -/
def ESP_OK : esp_err_t := 0

/-- Value `ESP_FAIL` of `esp_err.h`. -/
def ESP_FAIL : esp_err_t := -1

/-- What the hardware does when the program reads through a NULL pointer. -/
inductive Fault where
  | null_dereference
  deriving DecidableEq, Repr

/-- The libc `strcmp` on two valid C strings; only the sign of the result is specified. -/
def strcmp_chars : List Char → List Char → Int
  | [], [] => 0
  | [], _ :: _ => -1
  | _ :: _, [] => 1
  | a :: as, b :: bs =>
    if a = b then strcmp_chars as bs else if a.toNat < b.toNat then -1 else 1

/-- The libc `strcmp` on two pointers: reading through NULL is a fault. -/
def strcmp : Option String → Option String → Except Fault Int
  | some s1, some s2 => .ok (strcmp_chars s1.data s2.data)
  | _, _ => .error Fault.null_dereference

/-- The libc `strlen` on a valid C string. -/
def strlen (s : String) : Int := s.data.length

/-- The `tolower` of the C locale, as used by cJSON when it compares member names. -/
def tolower (c : Char) : Char := c.toLower

/-- The `case_insensitive_strcmp` of cJSON restricted to what its callers test:
whether the result is zero. -/
def case_insensitive_equal (s1 s2 : String) : Bool :=
  s1.data.map tolower == s2.data.map tolower

/-- A parsed JSON document as cJSON represents it: the type tag with the payload the
tag gives a meaning to. Members of an object keep their order and may repeat a name;
items of an array carry no name. -/
inductive cJSON where
  | cJSON_False
  | cJSON_True
  | cJSON_NULL
  | cJSON_Number (valueint : Int)
  | cJSON_String (valuestring : String)
  | cJSON_Array (child : List cJSON)
  | cJSON_Object (child : List (String × cJSON))
  | cJSON_Raw (valuestring : String)

open cJSON

/-- The cJSON function `cJSON_GetObjectItem`: NULL for a NULL object, otherwise the first
child whose name equals `name` up to the case of letters, NULL when there is none. -/
def cJSON_GetObjectItem : Option cJSON → String → Option cJSON
  | some (cJSON_Object child), name =>
    (child.find? (fun m => case_insensitive_equal name m.1)).map (fun m => m.2)
  | _, _ => none

/-- The cJSON function `cJSON_GetStringValue`: the `valuestring` of a string item,
NULL for anything else, NULL included. -/
def cJSON_GetStringValue : Option cJSON → Option String
  | some (cJSON_String valuestring) => some valuestring
  | _ => none

/-- The cJSON function `cJSON_CreateObject`. -/
def cJSON_CreateObject : cJSON := cJSON_Object []

/-- The cJSON function `cJSON_AddStringToObject`: appends a string member to an object. -/
def cJSON_AddStringToObject (object : cJSON) (name : String) (string : String) : cJSON :=
  match object with
  | cJSON_Object child => cJSON_Object (child ++ [(name, cJSON_String string)])
  | other => other

/-- The event base `WIFI_EVENT`. -/
def WIFI_EVENT : String := "WIFI_EVENT"

/-- The event base `IP_EVENT`. -/
def IP_EVENT : String := "IP_EVENT"

/-- Value `ESP_EVENT_ANY_ID` of `esp_event_base.h`. -/
def ESP_EVENT_ANY_ID : Int := -1

/-- Enumerator `WIFI_EVENT_STA_START` of `wifi_event_t`. -/
def WIFI_EVENT_STA_START : Int := 2

/-- Enumerator `WIFI_EVENT_STA_CONNECTED` of `wifi_event_t`. -/
def WIFI_EVENT_STA_CONNECTED : Int := 4

/-- Enumerator `WIFI_EVENT_STA_DISCONNECTED` of `wifi_event_t`. -/
def WIFI_EVENT_STA_DISCONNECTED : Int := 5

/-- Enumerator `IP_EVENT_STA_GOT_IP` of `ip_event_t`, the first one. -/
def IP_EVENT_STA_GOT_IP : Int := 0

/-- Enumerator `IP_EVENT_AP_STAIPASSIGNED` of `ip_event_t`. -/
def IP_EVENT_AP_STAIPASSIGNED : Int := 2

end ESP

namespace Q2_2

open ESP ESP.cJSON

/-- The macro `LED`, that is `GPIO_NUM_2`. -/
def LED : Nat := 2

/-- Value `HTTPD_RESP_USE_STRLEN` of `esp_http_server.h`. -/
def HTTPD_RESP_USE_STRLEN : Int := -1

/-- The request handed to a URI handler; only its body matters here. -/
structure httpd_req_t where
  body : String

/-- The library functions `led_handler` relies on and the repository does not contain. -/
structure Platform where
  /-- The C string found in the buffer after `httpd_req_recv(req, buf, buf_len)`;
  the return value of the call is ignored by the source. -/
  httpd_req_recv : httpd_req_t → Nat → String
  /-- The parser `cJSON_Parse`; NULL for a text that is not JSON. -/
  cJSON_Parse : String → Option cJSON
  /-- The printer `cJSON_Print`. -/
  cJSON_Print : cJSON → String

/-- What `led_handler` can change: the level of every GPIO pin and the bodies of the
responses sent so far, oldest first. -/
structure Board where
  level : Nat → Nat
  sent : List String

/-- The driver call `gpio_set_level`. -/
def gpio_set_level (gpio_num : Nat) (level : Nat) (b : Board) : Board :=
  { b with level := fun pin => if pin = gpio_num then level else b.level pin }

/-- The server call `httpd_resp_send(req, buf, buf_len)`: sends the first `buf_len` bytes
of `buf`, or all of it for `HTTPD_RESP_USE_STRLEN`. -/
def httpd_resp_send (b : Board) (buf : String) (buf_len : Int) : Board :=
  let body : String :=
    if buf_len = HTTPD_RESP_USE_STRLEN then buf else String.mk (buf.data.take buf_len.toNat)
  { b with sent := b.sent ++ [body] }

/-- The handler `led_handler` of the POST endpoint `/led`. -/
def led_handler (P : Platform) (req : httpd_req_t) (b : Board) :
    Except Fault (esp_err_t × Board) :=
  let content := P.httpd_req_recv req 100
  let request := P.cJSON_Parse content
  let command := cJSON_GetStringValue (cJSON_GetObjectItem request "command")
  let response := cJSON_CreateObject
  match strcmp command (some "ON") with
  | .error f => .error f
  | .ok cmp_on =>
    if cmp_on = 0 then
      let b := gpio_set_level LED 1 b
      let response := cJSON_AddStringToObject response "message" "LED is turned on"
      let jsonStr := P.cJSON_Print response
      let b := httpd_resp_send b jsonStr (strlen jsonStr)
      .ok (ESP_OK, b)
    else
      match strcmp command (some "OFF") with
      | .error f => .error f
      | .ok cmp_off =>
        if cmp_off = 0 then
          let b := gpio_set_level LED 0 b
          let response := cJSON_AddStringToObject response "message" "LED is turned off"
          let jsonStr := P.cJSON_Print response
          let b := httpd_resp_send b jsonStr (strlen jsonStr)
          .ok (ESP_OK, b)
        else
          let b := httpd_resp_send b "Invalid command" HTTPD_RESP_USE_STRLEN
          .ok (ESP_OK, b)

/-- A handful of request bodies with the document the parser builds for each. -/
def bench_documents : List (String × cJSON) :=
  [ ("\x7b\"command\":\"ON\"\x7d", cJSON_Object [("command", cJSON_String "ON")]),
    ("\x7b\"command\":\"OFF\"\x7d", cJSON_Object [("command", cJSON_String "OFF")]),
    ("\x7b\"command\":\"TOGGLE\"\x7d", cJSON_Object [("command", cJSON_String "TOGGLE")]),
    ("\x7b\"command\":1\x7d", cJSON_Object [("command", cJSON_Number 1)]),
    ("\x7b\x7d", cJSON_Object []) ]

/-- The text of an object whose members are all strings free of escapes, laid out the
way `cJSON_Print` does; the empty text for any other document. -/
def bench_print : cJSON → String
  | cJSON_Object [(name, cJSON_String valuestring)] =>
    "\x7b\n\t\"" ++ name ++ "\":\t\"" ++ valuestring ++ "\"\n\x7d"
  | _ => ""

/-- A platform to run examples on: the body arrives whole and NUL-terminated as long as
it fits the buffer, and the parser knows the bodies of `bench_documents` only. -/
def bench : Platform :=
  { httpd_req_recv := fun req buf_len => String.mk (req.body.data.take buf_len)
    cJSON_Parse := fun value =>
      (bench_documents.find? (fun d => d.1 == value)).map (fun d => d.2)
    cJSON_Print := bench_print }

/-- A board with every pin low and nothing sent. -/
def dark : Board := { level := fun _ => 0, sent := [] }

/-- A board with every pin high and nothing sent. -/
def lit : Board := { level := fun _ => 1, sent := [] }

/-- The build-time configuration (`sdkconfig`) read by the macros `ESP_WIFI_SSID`,
`ESP_WIFI_PASS`, `ESP_WIFI_CHANNEL`, `MAX_STA_CONN` and by the `#ifdef`. -/
structure sdkconfig where
  CONFIG_ESP_WIFI_SSID : String
  CONFIG_ESP_WIFI_PASSWORD : String
  CONFIG_ESP_WIFI_CHANNEL : Nat
  CONFIG_ESP_MAX_STA_CONN : Nat
  /-- Whether `CONFIG_ESP_WIFI_SOFTAP_SAE_SUPPORT` is defined. -/
  CONFIG_ESP_WIFI_SOFTAP_SAE_SUPPORT : Bool

/-- Enumerator `WIFI_AUTH_OPEN` of `wifi_auth_mode_t`, the first one. -/
def WIFI_AUTH_OPEN : Nat := 0

/-- Enumerator `WIFI_AUTH_WPA3_PSK` of `wifi_auth_mode_t`. -/
def WIFI_AUTH_WPA3_PSK : Nat := 6

/-- Enumerator `WPA3_SAE_PWE_BOTH` of `wifi_sae_pwe_method_t`. -/
def WPA3_SAE_PWE_BOTH : Nat := 3

/-- The fields of `wifi_ap_config_t` the source mentions. -/
structure wifi_ap_config_t where
  ssid : String
  ssid_len : Int
  channel : Nat
  password : String
  max_connection : Nat
  authmode : Nat
  sae_pwe_h2e : Nat
  pmf_cfg_required : Bool

/-- The configuration `wifi_init_softap` hands to `esp_wifi_set_config`. A field the
designated initializer leaves out is zero. The calls wrapped in `ESP_ERROR_CHECK` are
taken to succeed. -/
def wifi_init_softap (c : sdkconfig) : wifi_ap_config_t :=
  let wifi_config : wifi_ap_config_t :=
    { ssid := c.CONFIG_ESP_WIFI_SSID
      ssid_len := strlen c.CONFIG_ESP_WIFI_SSID
      channel := c.CONFIG_ESP_WIFI_CHANNEL
      password := c.CONFIG_ESP_WIFI_PASSWORD
      max_connection := c.CONFIG_ESP_MAX_STA_CONN
      authmode := if c.CONFIG_ESP_WIFI_SOFTAP_SAE_SUPPORT then WIFI_AUTH_WPA3_PSK else 0
      sae_pwe_h2e := if c.CONFIG_ESP_WIFI_SOFTAP_SAE_SUPPORT then WPA3_SAE_PWE_BOTH else 0
      pmf_cfg_required := true }
  if strlen c.CONFIG_ESP_WIFI_PASSWORD = 0 then
    { wifi_config with authmode := WIFI_AUTH_OPEN }
  else
    wifi_config

/-- A build without `CONFIG_ESP_WIFI_SOFTAP_SAE_SUPPORT` and with a password. -/
def legacy_build : sdkconfig :=
  { CONFIG_ESP_WIFI_SSID := "LEDServer"
    CONFIG_ESP_WIFI_PASSWORD := "mypassword"
    CONFIG_ESP_WIFI_CHANNEL := 1
    CONFIG_ESP_MAX_STA_CONN := 4
    CONFIG_ESP_WIFI_SOFTAP_SAE_SUPPORT := false }

/-- The state the access-point program keeps across events: the static `server` of
`app_main` (NULL is `none`), the number of `httpd_start` calls made, the URI handlers
registered and the lines logged, oldest first. -/
structure Node where
  server : Option Nat
  httpd_start_calls : Nat
  uri_handlers : List (Nat × String)
  log : List String

/-- The logging call `ESP_LOGI(TAG, ...)`. -/
def ESP_LOGI (line : String) (n : Node) : Node :=
  { n with log := n.log ++ [line] }

/-- The server call `httpd_start(&server, &config)`. `oracle k` is what the call number
`k` returns; a call that returns `ESP_OK` stores a fresh non-NULL handle, any other
leaves `server` as it was. -/
def httpd_start (oracle : Nat → esp_err_t) (server : Option Nat) (n : Node) :
    esp_err_t × Option Nat × Node :=
  let ret := oracle n.httpd_start_calls
  (ret, if ret = ESP_OK then some n.httpd_start_calls else server,
    { n with httpd_start_calls := n.httpd_start_calls + 1 })

/-- The server call `httpd_register_uri_handler(server, &led)`. -/
def httpd_register_uri_handler (server : Option Nat) (uri : String) (n : Node) : Node :=
  match server with
  | some h => { n with uri_handlers := n.uri_handlers ++ [(h, uri)] }
  | none => n

/-- The function `start_webserver`: the handle it returns and the state it leaves. -/
def start_webserver (oracle : Nat → esp_err_t) (n : Node) : Option Nat × Node :=
  let server : Option Nat := none
  let n := ESP_LOGI "Starting server on port: \x2780\x27" n
  match httpd_start oracle server n with
  | (ret, server, n) =>
    if ret = ESP_OK then
      let n := ESP_LOGI "Registering URI handlers" n
      let n := httpd_register_uri_handler server "/led" n
      (server, n)
    else
      let n := ESP_LOGI "Error starting server!" n
      (none, n)

/-- The event handler `connect_handler`; `arg` points at `n.server`. The event itself is
not inspected. -/
def connect_handler (oracle : Nat → esp_err_t) (event_base : String) (event_id : Int)
    (n : Node) : Node :=
  if n.server = none then
    let n := ESP_LOGI "Starting webserver" n
    match start_webserver oracle n with
    | (server, n) => { n with server := server }
  else
    n

/-- The event `connect_handler` is registered for in `app_main`: an address was assigned
to a station that joined the access point. -/
def peer_joined : String × Int := (IP_EVENT, IP_EVENT_AP_STAIPASSIGNED)

/-- The state `app_main` registers `connect_handler` with: `server` is NULL. -/
def app_main : Node :=
  { server := none, httpd_start_calls := 0, uri_handlers := [], log := [] }

/-- Delivers a sequence of events to `connect_handler`, in order. -/
def deliver (oracle : Nat → esp_err_t) : List (String × Int) → Node → Node
  | [], n => n
  | e :: es, n => deliver oracle es (connect_handler oracle e.1 e.2 n)

/-- An oracle under which `httpd_start` always succeeds. -/
def always_ok : Nat → esp_err_t := fun _ => ESP_OK

/-- An oracle under which `httpd_start` never succeeds. -/
def always_fail : Nat → esp_err_t := fun _ => ESP_FAIL

/-- An oracle under which `httpd_start` fails on the first call and succeeds afterwards. -/
def fail_once : Nat → esp_err_t := fun k => if k = 0 then ESP_FAIL else ESP_OK

/-- The number of `start_webserver` calls recorded in a log: each call of
`connect_handler` that finds `server` NULL logs this line once, right before the call. -/
def webserver_starts (n : Node) : Nat :=
  n.log.count "Starting webserver"

end Q2_2

namespace Q2_1

open ESP

/-- The handler `wifi_event_handler` of the station program: the texts it prints, one
for each `printf` call. The `switch` looks at `event_id` only. -/
def wifi_event_handler (event_base : String) (event_id : Int) : List String :=
  if event_id = WIFI_EVENT_STA_START then ["WiFi connecting ... \n"]
  else if event_id = WIFI_EVENT_STA_CONNECTED then ["WiFi connected ... \n"]
  else if event_id = WIFI_EVENT_STA_DISCONNECTED then ["WiFi lost connection ... \n"]
  else if event_id = IP_EVENT_STA_GOT_IP then ["WiFi got IP ... \n\n"]
  else []

/-- The line that announces the address, the readiness signal of the station program. -/
def network_ready : String := "WiFi got IP ... \n\n"

/-- The two `esp_event_handler_register` calls of `wifi_connection`: the event base and
the event id `wifi_event_handler` is registered for. -/
def wifi_connection : List (String × Int) :=
  [(WIFI_EVENT, ESP_EVENT_ANY_ID), (IP_EVENT, IP_EVENT_STA_GOT_IP)]

/-- The default event loop delivering one event: every registration whose base is the
event base and whose id is the event id or `ESP_EVENT_ANY_ID` runs the handler once. -/
def esp_event_post (registered : List (String × Int)) (event_base : String)
    (event_id : Int) : List String :=
  (registered.filter
    (fun r => r.1 == event_base && (r.2 == ESP_EVENT_ANY_ID || r.2 == event_id))).flatMap
    (fun _ => wifi_event_handler event_base event_id)

/-- The output of the station dispatcher for a sequence of events, in order. -/
def dispatch (events : List (String × Int)) : List String :=
  events.flatMap (fun e => esp_event_post wifi_connection e.1 e.2)

/-- The enumeration `esp_http_client_event_id_t`. -/
inductive esp_http_client_event_id_t where
  | HTTP_EVENT_ERROR
  | HTTP_EVENT_ON_CONNECTED
  | HTTP_EVENT_HEADERS_SENT
  | HTTP_EVENT_ON_HEADER
  | HTTP_EVENT_ON_DATA
  | HTTP_EVENT_ON_FINISH
  | HTTP_EVENT_DISCONNECTED
  | HTTP_EVENT_REDIRECT
  deriving DecidableEq, Repr

open esp_http_client_event_id_t

/-- The fields of `esp_http_client_event_t` the handler reads: `data` is the memory
`evt->data` points at, of which the chunk is the first `data_len` bytes. -/
structure esp_http_client_event_t where
  event_id : esp_http_client_event_id_t
  data : List Char
  data_len : Int

/-- The chunk an event carries: the first `data_len` bytes at `data`. -/
def chunk (evt : esp_http_client_event_t) : List Char :=
  evt.data.take evt.data_len.toNat

/-- The NUL character, which ends a C string. -/
def NUL : Char := Char.ofNat 0

/-- An event that delivers the three bytes `a`, NUL, `b`. -/
def binary_chunk : esp_http_client_event_t :=
  { event_id := HTTP_EVENT_ON_DATA, data := ['a', NUL, 'b'], data_len := 3 }

/-- An event that delivers the two bytes `h`, `i` out of a longer buffer. -/
def text_chunk : esp_http_client_event_t :=
  { event_id := HTTP_EVENT_ON_DATA, data := ['h', 'i', '!', '!'], data_len := 2 }

/-- An event that delivers no data. -/
def finish : esp_http_client_event_t :=
  { event_id := HTTP_EVENT_ON_FINISH, data := [], data_len := 0 }

/-- The conversion `%.*s` of `printf`: the bytes at `s` up to the first NUL, at most
`precision` of them; a negative precision counts as none given. -/
def printf_precision_s (precision : Int) (s : List Char) : List Char :=
  if precision < 0 then s.takeWhile (fun c => c != NUL)
  else (s.take precision.toNat).takeWhile (fun c => c != NUL)

/-- The handler `client_event_get_handler`: the value it returns and the text of each
`printf` call it makes. -/
def client_event_get_handler (evt : esp_http_client_event_t) : esp_err_t × List (List Char) :=
  match evt.event_id with
  | HTTP_EVENT_ON_DATA =>
    (ESP_OK,
      ["HTTP_EVENT_ON_DATA: ".data ++ printf_precision_s evt.data_len evt.data ++ "\n".data])
  | _ => (ESP_OK, [])

/-- The output of the HTTP client for a sequence of events: the records printed by the
handler calls, in order. -/
def observe (events : List esp_http_client_event_t) : List (List Char) :=
  events.flatMap (fun evt => (client_event_get_handler evt).2)

end Q2_1

/-! ## Facts about the library model -/

namespace ESP

theorem strcmp_chars_self (a : List Char) : strcmp_chars a a = 0 := by
  induction a with
  | nil => rfl
  | cons c cs ih => simp [strcmp_chars, ih]

theorem strcmp_chars_eq_zero (a b : List Char) (h : strcmp_chars a b = 0) : a = b := by
  induction a generalizing b with
  | nil =>
    cases b with
    | nil => rfl
    | cons d ds => simp [strcmp_chars] at h
  | cons c cs ih =>
    cases b with
    | nil => simp [strcmp_chars] at h
    | cons d ds =>
      simp only [strcmp_chars] at h
      by_cases hcd : c = d
      · rw [if_pos hcd] at h
        rw [hcd, ih ds h]
      · rw [if_neg hcd] at h
        split at h <;> simp at h

theorem strcmp_eq (s1 s2 : String) :
    strcmp (some s1) (some s2) = .ok (strcmp_chars s1.data s2.data) := rfl

theorem strcmp_same (s : String) : strcmp (some s) (some s) = .ok 0 := by
  rw [strcmp_eq, strcmp_chars_self]

theorem strcmp_chars_ne (s1 s2 : String) (h : s1 ≠ s2) : strcmp_chars s1.data s2.data ≠ 0 := by
  intro h0
  apply h
  have := strcmp_chars_eq_zero _ _ h0
  cases s1; cases s2; simp_all

theorem strcmp_null (s : Option String) : strcmp none s = .error Fault.null_dereference := by
  cases s <;> rfl

end ESP

namespace Q2_2

open ESP ESP.cJSON

theorem httpd_resp_send_strlen (b : Board) (buf : String) :
    httpd_resp_send b buf (strlen buf) = { b with sent := b.sent ++ [buf] } := by
  have hne : ¬ ((buf.data.length : Int) = -1) := by omega
  have htake : String.mk (List.take buf.data.length buf.data) = buf := by
    rw [List.take_length]
  simp only [httpd_resp_send, strlen, HTTPD_RESP_USE_STRLEN, hne, if_false, Int.toNat_ofNat,
    htake]

/-! ## The `/led` endpoint -/

/-- C1: when the parser yields a document whose "command" member is the string "ON",
`led_handler` returns `ESP_OK`, drives the LED pin to level 1 whatever the levels were
before (the other pins keep theirs), and sends exactly one response, the printed JSON
object with the single member "message" = "LED is turned on". -/
theorem led_handler_on (P : Platform) (req : httpd_req_t) (b : Board) (request : cJSON)
    (hparse : P.cJSON_Parse (P.httpd_req_recv req 100) = some request)
    (hcmd : cJSON_GetStringValue (cJSON_GetObjectItem (some request) "command") = some "ON") :
    led_handler P req b = .ok (ESP_OK,
      { level := fun pin => if pin = LED then 1 else b.level pin
        sent := b.sent ++
          [P.cJSON_Print (cJSON_Object [("message", cJSON_String "LED is turned on")])] }) := by
  simp only [led_handler, hparse, hcmd, strcmp_same, if_true, httpd_resp_send_strlen]
  rfl

theorem led_handler_on_witness :
    led_handler bench { body := "\x7b\"command\":\"ON\"\x7d" } dark = .ok (ESP_OK,
      { level := fun pin => if pin = LED then 1 else dark.level pin
        sent := dark.sent ++
          [bench.cJSON_Print (cJSON_Object [("message", cJSON_String "LED is turned on")])] }) :=
  led_handler_on bench { body := "\x7b\"command\":\"ON\"\x7d" } dark
    (cJSON_Object [("command", cJSON_String "ON")]) rfl rfl

/-- C2: when the parser yields a document whose "command" member is the string "OFF",
`led_handler` returns `ESP_OK`, drives the LED pin to level 0 whatever the levels were
before (the other pins keep theirs), and sends exactly one response, the printed JSON
object with the single member "message" = "LED is turned off". -/
theorem led_handler_off (P : Platform) (req : httpd_req_t) (b : Board) (request : cJSON)
    (hparse : P.cJSON_Parse (P.httpd_req_recv req 100) = some request)
    (hcmd : cJSON_GetStringValue (cJSON_GetObjectItem (some request) "command") = some "OFF") :
    led_handler P req b = .ok (ESP_OK,
      { level := fun pin => if pin = LED then 0 else b.level pin
        sent := b.sent ++
          [P.cJSON_Print (cJSON_Object [("message", cJSON_String "LED is turned off")])] }) := by
  have hne : strcmp_chars "OFF".data "ON".data ≠ 0 := by decide
  simp only [led_handler, hparse, hcmd, strcmp_same, strcmp_eq, hne, if_true, if_false,
    httpd_resp_send_strlen]
  rfl

theorem led_handler_off_witness :
    led_handler bench { body := "\x7b\"command\":\"OFF\"\x7d" } lit = .ok (ESP_OK,
      { level := fun pin => if pin = LED then 0 else lit.level pin
        sent := lit.sent ++
          [bench.cJSON_Print (cJSON_Object [("message", cJSON_String "LED is turned off")])] }) :=
  led_handler_off bench { body := "\x7b\"command\":\"OFF\"\x7d" } lit
    (cJSON_Object [("command", cJSON_String "OFF")]) rfl rfl

/-- C3: when the parser yields a document whose "command" member is a string other than
exactly "ON" and "OFF", `led_handler` returns `ESP_OK`, sends exactly one response whose
body is the plain text "Invalid command", and leaves the level of every pin as it was. -/
theorem led_handler_invalid (P : Platform) (req : httpd_req_t) (b : Board) (request : cJSON)
    (command : String)
    (hparse : P.cJSON_Parse (P.httpd_req_recv req 100) = some request)
    (hcmd : cJSON_GetStringValue (cJSON_GetObjectItem (some request) "command") = some command)
    (hon : command ≠ "ON") (hoff : command ≠ "OFF") :
    led_handler P req b = .ok (ESP_OK,
      { level := b.level, sent := b.sent ++ ["Invalid command"] }) := by
  have h1 := strcmp_chars_ne command "ON" hon
  have h2 := strcmp_chars_ne command "OFF" hoff
  simp only [led_handler, hparse, hcmd, strcmp_eq, h1, h2, if_false]
  rfl

theorem led_handler_invalid_witness :
    led_handler bench { body := "\x7b\"command\":\"TOGGLE\"\x7d" } lit = .ok (ESP_OK,
      { level := lit.level, sent := lit.sent ++ ["Invalid command"] }) :=
  led_handler_invalid bench { body := "\x7b\"command\":\"TOGGLE\"\x7d" } lit
    (cJSON_Object [("command", cJSON_String "TOGGLE")]) "TOGGLE" rfl rfl
    (by decide) (by decide)

/-- C4: when the parser rejects the body (`cJSON_Parse` returns NULL), `led_handler` still
asks the NULL document for its "command" member, gets a NULL string and hands it to
`strcmp`: the handler faults on the NULL read, so it returns nothing and sends nothing. -/
theorem led_handler_malformed_faults (P : Platform) (req : httpd_req_t) (b : Board)
    (hparse : P.cJSON_Parse (P.httpd_req_recv req 100) = none) :
    led_handler P req b = .error Fault.null_dereference := by
  simp only [led_handler, hparse, cJSON_GetObjectItem, cJSON_GetStringValue, strcmp_null]

theorem led_handler_malformed_faults_witness :
    led_handler bench { body := "not json" } dark = .error Fault.null_dereference ∧
    led_handler bench { body := "" } dark = .error Fault.null_dereference :=
  ⟨led_handler_malformed_faults bench { body := "not json" } dark rfl,
   led_handler_malformed_faults bench { body := "" } dark rfl⟩

/-- C8: when the parser yields a document that has no "command" member, or whose "command"
member is not a string, `cJSON_GetStringValue` returns NULL and `led_handler` hands it to
`strcmp`: the handler faults on the NULL read instead of answering "Invalid command". -/
theorem led_handler_no_command_faults (P : Platform) (req : httpd_req_t) (b : Board)
    (request : cJSON)
    (hparse : P.cJSON_Parse (P.httpd_req_recv req 100) = some request)
    (hcmd : cJSON_GetStringValue (cJSON_GetObjectItem (some request) "command") = none) :
    led_handler P req b = .error Fault.null_dereference := by
  simp only [led_handler, hparse, hcmd, strcmp_null]

theorem led_handler_no_command_faults_witness :
    led_handler bench { body := "\x7b\x7d" } dark = .error Fault.null_dereference ∧
    led_handler bench { body := "\x7b\"command\":1\x7d" } dark =
      .error Fault.null_dereference :=
  ⟨led_handler_no_command_faults bench { body := "\x7b\x7d" } dark (cJSON_Object [])
     rfl rfl,
   led_handler_no_command_faults bench { body := "\x7b\"command\":1\x7d" } dark
     (cJSON_Object [("command", cJSON_Number 1)]) rfl rfl⟩

end Q2_2

namespace Q2_2

open ESP ESP.cJSON

/-! ## The authentication mode of the access point -/

theorem strlen_eq_zero_iff (s : String) : strlen s = 0 ↔ s = "" := by
  cases s with
  | mk data =>
    cases data with
    | nil => simp [strlen]
    | cons c cs =>
      have hne : String.mk (c :: cs) ≠ "" := by
        intro h
        have := congrArg String.data h
        simp at this
      simp only [strlen, List.length_cons, hne, iff_false]
      push_cast
      omega

theorem authmode_open_of_empty (c : sdkconfig) (h : c.CONFIG_ESP_WIFI_PASSWORD = "") :
    (wifi_init_softap c).authmode = WIFI_AUTH_OPEN := by
  have h0 : strlen c.CONFIG_ESP_WIFI_PASSWORD = 0 := (strlen_eq_zero_iff _).2 h
  simp [wifi_init_softap, h0]

theorem authmode_with_sae (c : sdkconfig) (hsae : c.CONFIG_ESP_WIFI_SOFTAP_SAE_SUPPORT = true) :
    (wifi_init_softap c).authmode = WIFI_AUTH_OPEN ↔ c.CONFIG_ESP_WIFI_PASSWORD = "" := by
  constructor
  · intro h
    by_contra hne
    have h0 : ¬ strlen c.CONFIG_ESP_WIFI_PASSWORD = 0 := fun h0 =>
      hne ((strlen_eq_zero_iff _).1 h0)
    simp [wifi_init_softap, h0, hsae, WIFI_AUTH_OPEN, WIFI_AUTH_WPA3_PSK] at h
  · exact authmode_open_of_empty c

/-- C6: in a build without `CONFIG_ESP_WIFI_SOFTAP_SAE_SUPPORT` the initializer of
`wifi_init_softap` sets no `authmode`, the field stays zero, and zero is
`WIFI_AUTH_OPEN`: the access point is open for every password, a non-empty one included. -/
theorem authmode_without_sae (c : sdkconfig)
    (hsae : c.CONFIG_ESP_WIFI_SOFTAP_SAE_SUPPORT = false) :
    (wifi_init_softap c).authmode = WIFI_AUTH_OPEN := by
  by_cases h0 : strlen c.CONFIG_ESP_WIFI_PASSWORD = 0
  · simp [wifi_init_softap, h0]
  · simp [wifi_init_softap, h0, hsae, WIFI_AUTH_OPEN]

theorem authmode_without_sae_witness :
    legacy_build.CONFIG_ESP_WIFI_PASSWORD ≠ "" ∧
    (wifi_init_softap legacy_build).password = "mypassword" ∧
    (wifi_init_softap legacy_build).authmode = WIFI_AUTH_OPEN :=
  ⟨by decide, by decide, authmode_without_sae legacy_build rfl⟩

/-! ## Starting the command server -/

theorem connect_handler_of_some (oracle : Nat → esp_err_t) (event_base : String)
    (event_id : Int) (n : Node) (h : Nat) (hs : n.server = some h) :
    connect_handler oracle event_base event_id n = n := by
  simp [connect_handler, hs]

theorem deliver_of_some (oracle : Nat → esp_err_t) (events : List (String × Int)) (n : Node)
    (h : Nat) (hs : n.server = some h) : deliver oracle events n = n := by
  induction events with
  | nil => rfl
  | cons e es ih => rw [deliver, connect_handler_of_some oracle e.1 e.2 n h hs, ih]

theorem connect_handler_ok (oracle : Nat → esp_err_t) (event_base : String) (event_id : Int)
    (n : Node) (hnull : n.server = none) (hok : oracle n.httpd_start_calls = ESP_OK) :
    connect_handler oracle event_base event_id n =
      { server := some n.httpd_start_calls
        httpd_start_calls := n.httpd_start_calls + 1
        uri_handlers := n.uri_handlers ++ [(n.httpd_start_calls, "/led")]
        log := n.log ++ ["Starting webserver", "Starting server on port: \x2780\x27",
          "Registering URI handlers"] } := by
  simp [connect_handler, hnull, start_webserver, httpd_start, ESP_LOGI, hok,
    httpd_register_uri_handler]

theorem connect_handler_fail (oracle : Nat → esp_err_t) (event_base : String) (event_id : Int)
    (n : Node) (hnull : n.server = none) (hfail : oracle n.httpd_start_calls ≠ ESP_OK) :
    connect_handler oracle event_base event_id n =
      { server := none
        httpd_start_calls := n.httpd_start_calls + 1
        uri_handlers := n.uri_handlers
        log := n.log ++ ["Starting webserver", "Starting server on port: \x2780\x27",
          "Error starting server!"] } := by
  simp [connect_handler, hnull, start_webserver, httpd_start, ESP_LOGI, hfail]

/-- C5, as stated, fails when `httpd_start` does not succeed: after two PeerJoined events
from the state of `app_main` the handle is still NULL, and the second event has called
`start_webserver` again (two calls, two `httpd_start` attempts). -/
theorem two_peers_start_twice_on_failure :
    (deliver always_fail [peer_joined] app_main).server = none ∧
    (deliver always_fail [peer_joined, peer_joined] app_main).server = none ∧
    webserver_starts (deliver always_fail [peer_joined] app_main) = 1 ∧
    webserver_starts (deliver always_fail [peer_joined, peer_joined] app_main) = 2 ∧
    (deliver always_fail [peer_joined, peer_joined] app_main).httpd_start_calls = 2 := by
  refine ⟨?_, ?_, ?_, ?_, ?_⟩ <;> decide

/-- C5, amended: from a state whose handle is NULL, if the `httpd_start` call made for the
first PeerJoined event returns `ESP_OK`, that event calls `start_webserver` once and
stores the handle, and a second PeerJoined event changes nothing at all: no further
`start_webserver` or `httpd_start` call and the same handle. -/
theorem connect_handler_starts_once (oracle : Nat → esp_err_t) (first second : String × Int)
    (n : Node) (hnull : n.server = none) (hok : oracle n.httpd_start_calls = ESP_OK) :
    (connect_handler oracle first.1 first.2 n).server = some n.httpd_start_calls ∧
    webserver_starts (connect_handler oracle first.1 first.2 n) = webserver_starts n + 1 ∧
    (connect_handler oracle first.1 first.2 n).httpd_start_calls = n.httpd_start_calls + 1 ∧
    connect_handler oracle second.1 second.2 (connect_handler oracle first.1 first.2 n) =
      connect_handler oracle first.1 first.2 n ∧
    deliver oracle [first, second] n = connect_handler oracle first.1 first.2 n := by
  have h1 := connect_handler_ok oracle first.1 first.2 n hnull hok
  have h2 : connect_handler oracle second.1 second.2 (connect_handler oracle first.1 first.2 n) =
      connect_handler oracle first.1 first.2 n :=
    connect_handler_of_some oracle second.1 second.2 _ n.httpd_start_calls (by rw [h1])
  refine ⟨by rw [h1], ?_, by rw [h1], h2, ?_⟩
  · rw [h1]
    simp only [webserver_starts]
    rw [List.count_append]
    have : List.count "Starting webserver" ["Starting webserver",
        "Starting server on port: \x2780\x27", "Registering URI handlers"] = 1 := by decide
    rw [this]
  · simp only [deliver]
    exact h2

theorem connect_handler_starts_once_witness :
    (connect_handler always_ok peer_joined.1 peer_joined.2 app_main).server =
      some app_main.httpd_start_calls ∧
    webserver_starts (connect_handler always_ok peer_joined.1 peer_joined.2 app_main) =
      webserver_starts app_main + 1 ∧
    (connect_handler always_ok peer_joined.1 peer_joined.2 app_main).httpd_start_calls =
      app_main.httpd_start_calls + 1 ∧
    connect_handler always_ok peer_joined.1 peer_joined.2
        (connect_handler always_ok peer_joined.1 peer_joined.2 app_main) =
      connect_handler always_ok peer_joined.1 peer_joined.2 app_main ∧
    deliver always_ok [peer_joined, peer_joined] app_main =
      connect_handler always_ok peer_joined.1 peer_joined.2 app_main :=
  connect_handler_starts_once always_ok peer_joined peer_joined app_main rfl rfl

/-- C7: from a state whose handle is NULL, if the `httpd_start` call made for a PeerJoined
event does not return `ESP_OK`, then `start_webserver` returns NULL and `connect_handler`
leaves the handle NULL; the next PeerJoined event calls `start_webserver` and
`httpd_start` again, and stores a handle if that attempt returns `ESP_OK`. From any state
whose handle is not NULL, no sequence of events changes the state, the handle included. -/
theorem start_failure_retries (oracle : Nat → esp_err_t) (first second : String × Int)
    (n : Node) (hnull : n.server = none) (hfail : oracle n.httpd_start_calls ≠ ESP_OK) :
    (start_webserver oracle n).1 = none ∧
    (connect_handler oracle first.1 first.2 n).server = none ∧
    webserver_starts (deliver oracle [first, second] n) = webserver_starts n + 2 ∧
    (deliver oracle [first, second] n).httpd_start_calls = n.httpd_start_calls + 2 ∧
    (oracle (n.httpd_start_calls + 1) = ESP_OK →
      (deliver oracle [first, second] n).server = some (n.httpd_start_calls + 1)) ∧
    (∀ (m : Node) (h : Nat) (later : List (String × Int)), m.server = some h →
      deliver oracle later m = m ∧ (deliver oracle later m).server = some h) := by
  have h1 := connect_handler_fail oracle first.1 first.2 n hnull hfail
  have hc1 : List.count "Starting webserver" ["Starting webserver",
      "Starting server on port: \x2780\x27", "Error starting server!"] = 1 := by decide
  have hc2 : List.count "Starting webserver" ["Starting webserver",
      "Starting server on port: \x2780\x27", "Registering URI handlers"] = 1 := by decide
  have hw1 : webserver_starts (connect_handler oracle first.1 first.2 n) =
      webserver_starts n + 1 := by
    rw [h1]; simp only [webserver_starts]; rw [List.count_append, hc1]
  have hn1 : (connect_handler oracle first.1 first.2 n).server = none := by rw [h1]
  have hk1 : (connect_handler oracle first.1 first.2 n).httpd_start_calls =
      n.httpd_start_calls + 1 := by rw [h1]
  refine ⟨?_, hn1, ?_, ?_, ?_, ?_⟩
  · simp [start_webserver, httpd_start, ESP_LOGI, hfail]
  · simp only [deliver]
    by_cases h2 : oracle (connect_handler oracle first.1 first.2 n).httpd_start_calls = ESP_OK
    · rw [connect_handler_ok oracle second.1 second.2 _ hn1 h2]
      simp only [webserver_starts] at hw1 ⊢
      rw [List.count_append, hc2, hw1]
    · rw [connect_handler_fail oracle second.1 second.2 _ hn1 h2]
      simp only [webserver_starts] at hw1 ⊢
      rw [List.count_append, hc1, hw1]
  · simp only [deliver]
    by_cases h2 : oracle (connect_handler oracle first.1 first.2 n).httpd_start_calls = ESP_OK
    · rw [connect_handler_ok oracle second.1 second.2 _ hn1 h2, hk1]
    · rw [connect_handler_fail oracle second.1 second.2 _ hn1 h2, hk1]
  · intro h2
    simp only [deliver]
    rw [← hk1] at h2
    rw [connect_handler_ok oracle second.1 second.2 _ hn1 h2, hk1]
  · intro m h later hs
    have := deliver_of_some oracle later m h hs
    exact ⟨this, by rw [this, hs]⟩

theorem start_failure_retries_witness :
    (start_webserver fail_once app_main).1 = none ∧
    (connect_handler fail_once peer_joined.1 peer_joined.2 app_main).server = none ∧
    webserver_starts (deliver fail_once [peer_joined, peer_joined] app_main) =
      webserver_starts app_main + 2 ∧
    (deliver fail_once [peer_joined, peer_joined] app_main).httpd_start_calls =
      app_main.httpd_start_calls + 2 ∧
    (fail_once (app_main.httpd_start_calls + 1) = ESP_OK →
      (deliver fail_once [peer_joined, peer_joined] app_main).server =
        some (app_main.httpd_start_calls + 1)) ∧
    (∀ (m : Node) (h : Nat) (later : List (String × Int)), m.server = some h →
      deliver fail_once later m = m ∧ (deliver fail_once later m).server = some h) :=
  start_failure_retries fail_once peer_joined peer_joined app_main rfl (by decide)

end Q2_2

namespace Q2_1

open ESP esp_http_client_event_id_t

/-! ## The chunk observer of the HTTP client -/

theorem takeWhile_of_not_mem (s : List Char) (h : NUL ∉ s) :
    s.takeWhile (fun c => c != NUL) = s := by
  induction s with
  | nil => rfl
  | cons c cs ih =>
    have hc : c ≠ NUL := fun hc => h (by simp [hc])
    have hcs : NUL ∉ cs := fun hcs => h (List.mem_cons_of_mem c hcs)
    have hb : (c != NUL) = true := by simp [hc]
    rw [List.takeWhile_cons, hb, if_pos rfl, ih hcs]

theorem printf_precision_s_of_nonneg (evt : esp_http_client_event_t) (h : 0 ≤ evt.data_len) :
    printf_precision_s evt.data_len evt.data = (chunk evt).takeWhile (fun c => c != NUL) := by
  have hlt : ¬ evt.data_len < 0 := by omega
  simp [printf_precision_s, chunk, hlt]

theorem observe_cons (evt : esp_http_client_event_t) (events : List esp_http_client_event_t) :
    observe (evt :: events) = (client_event_get_handler evt).2 ++ observe events := by
  simp [observe]

/-- C9, as stated, fails on a chunk that holds a NUL byte: for the three bytes `a`, NUL, `b`
the handler prints the record of the single byte `a`, not the three bytes of the chunk. -/
theorem observe_binary_chunk_truncated :
    chunk binary_chunk = ['a', NUL, 'b'] ∧
    observe [binary_chunk] = ["HTTP_EVENT_ON_DATA: a\n".data] ∧
    observe [binary_chunk] ≠
      ["HTTP_EVENT_ON_DATA: ".data ++ chunk binary_chunk ++ "\n".data] := by
  refine ⟨?_, ?_, ?_⟩ <;> decide

/-- C9, amended: for every sequence of HTTP client events whose `data_len` are not
negative, the output is one record for each `HTTP_EVENT_ON_DATA` event, in arrival order,
made of the tag, the bytes of the chunk that precede its first NUL byte, and a newline;
when no chunk holds a NUL byte each record carries exactly the `data_len` bytes of its
chunk (none for an empty chunk). Events of any other kind print nothing, and the handler
returns `ESP_OK` for every event. -/
theorem observe_records (events : List esp_http_client_event_t)
    (hlen : ∀ evt ∈ events, 0 ≤ evt.data_len) :
    observe events =
      (events.filter (fun evt => evt.event_id = HTTP_EVENT_ON_DATA)).map
        (fun evt => "HTTP_EVENT_ON_DATA: ".data ++
          (chunk evt).takeWhile (fun c => c != NUL) ++ "\n".data) ∧
    ((∀ evt ∈ events, NUL ∉ chunk evt) →
      observe events =
        (events.filter (fun evt => evt.event_id = HTTP_EVENT_ON_DATA)).map
          (fun evt => "HTTP_EVENT_ON_DATA: ".data ++ chunk evt ++ "\n".data)) ∧
    (∀ evt : esp_http_client_event_t, evt.event_id ≠ HTTP_EVENT_ON_DATA →
      (client_event_get_handler evt).2 = []) ∧
    (∀ evt : esp_http_client_event_t, (client_event_get_handler evt).1 = ESP_OK) := by
  have hfirst : observe events =
      (events.filter (fun evt => evt.event_id = HTTP_EVENT_ON_DATA)).map
        (fun evt => "HTTP_EVENT_ON_DATA: ".data ++
          (chunk evt).takeWhile (fun c => c != NUL) ++ "\n".data) := by
    induction events with
    | nil => rfl
    | cons evt rest ih =>
      have hrest := ih (fun e he => hlen e (List.mem_cons_of_mem evt he))
      have hevt := printf_precision_s_of_nonneg evt (hlen evt (List.mem_cons_self evt rest))
      rw [observe_cons, hrest]
      by_cases hid : evt.event_id = HTTP_EVENT_ON_DATA
      · simp [client_event_get_handler, hid, hevt]
      · have hout : (client_event_get_handler evt).2 = [] := by
          unfold client_event_get_handler
          split
          · rename_i heq
            exact absurd heq hid
          · rfl
        simp [hout, hid]
  refine ⟨hfirst, ?_, ?_, ?_⟩
  · intro hnul
    rw [hfirst]
    apply List.map_congr_left
    intro evt hmem
    have hin : evt ∈ events := (List.mem_filter.1 hmem).1
    rw [takeWhile_of_not_mem _ (hnul evt hin)]
  · intro evt hid
    unfold client_event_get_handler
    split
    · rename_i heq
      exact absurd heq hid
    · rfl
  · intro evt
    unfold client_event_get_handler
    split <;> rfl

theorem observe_records_witness :
    (∀ evt ∈ [text_chunk, finish, binary_chunk], 0 ≤ evt.data_len) ∧
    observe [text_chunk, finish, binary_chunk] =
      ["HTTP_EVENT_ON_DATA: hi\n".data, "HTTP_EVENT_ON_DATA: a\n".data] :=
  ⟨by decide,
   (observe_records [text_chunk, finish, binary_chunk] (by decide)).1.trans (by decide)⟩

/-! ## The station dispatcher -/

/-- C10, as stated, fails for an event of base `WIFI_EVENT` whose id has the value of
`IP_EVENT_STA_GOT_IP` (zero): it is not the AddressAssigned event, the handler is
registered for it, and the handler prints the readiness line for it. -/
theorem network_ready_on_wifi_event_zero :
    (WIFI_EVENT, (0 : Int)) ≠ (IP_EVENT, IP_EVENT_STA_GOT_IP) ∧
    network_ready ∈ wifi_event_handler WIFI_EVENT 0 ∧
    network_ready ∈ esp_event_post wifi_connection WIFI_EVENT 0 ∧
    (dispatch [(WIFI_EVENT, 0)]).count network_ready = 1 := by
  refine ⟨?_, ?_, ?_, ?_⟩ <;> decide

/-- C10, amended: feeding [InterfaceStarting, AddressAssigned] prints the readiness line
exactly once, after the line of InterfaceStarting and not before AddressAssigned is
delivered. The handler looks at `event_id` alone: it prints the readiness line for an
event if and only if the id has the value of `IP_EVENT_STA_GOT_IP`, whatever the event
base, so never for InterfaceStarting, LinkEstablished or LinkLost; through the two
registrations such an event reaches it when its base is `IP_EVENT` or `WIFI_EVENT`. -/
theorem network_ready_iff (event_base : String) (event_id : Int) :
    dispatch [(WIFI_EVENT, WIFI_EVENT_STA_START), (IP_EVENT, IP_EVENT_STA_GOT_IP)] =
      ["WiFi connecting ... \n", network_ready] ∧
    (dispatch [(WIFI_EVENT, WIFI_EVENT_STA_START), (IP_EVENT, IP_EVENT_STA_GOT_IP)]).count
      network_ready = 1 ∧
    (dispatch [(WIFI_EVENT, WIFI_EVENT_STA_START)]).count network_ready = 0 ∧
    (network_ready ∈ wifi_event_handler event_base event_id ↔
      event_id = IP_EVENT_STA_GOT_IP) ∧
    network_ready ∉ wifi_event_handler event_base WIFI_EVENT_STA_START ∧
    network_ready ∉ wifi_event_handler event_base WIFI_EVENT_STA_CONNECTED ∧
    network_ready ∉ wifi_event_handler event_base WIFI_EVENT_STA_DISCONNECTED ∧
    (network_ready ∈ esp_event_post wifi_connection event_base event_id ↔
      event_id = IP_EVENT_STA_GOT_IP ∧ (event_base = IP_EVENT ∨ event_base = WIFI_EVENT)) := by
  have hhandler : ∀ id : Int, network_ready ∈ wifi_event_handler event_base id ↔
      id = IP_EVENT_STA_GOT_IP := by
    intro id
    unfold wifi_event_handler
    split
    · rename_i h; rw [h]; decide
    · split
      · rename_i h; rw [h]; decide
      · split
        · rename_i h; rw [h]; decide
        · split
          · rename_i h; rw [h]; decide
          · rename_i h; simp [h]
  refine ⟨by decide, by decide, by decide, hhandler event_id, ?_, ?_, ?_, ?_⟩
  · rw [hhandler]; decide
  · rw [hhandler]; decide
  · rw [hhandler]; decide
  · by_cases hw : event_base = WIFI_EVENT
    · subst hw
      have : esp_event_post wifi_connection WIFI_EVENT event_id =
          wifi_event_handler WIFI_EVENT event_id := by
        simp [esp_event_post, wifi_connection, ESP_EVENT_ANY_ID, WIFI_EVENT, IP_EVENT]
      rw [this, hhandler]
      simp
    · by_cases hi : event_base = IP_EVENT
      · subst hi
        by_cases hid : event_id = IP_EVENT_STA_GOT_IP
        · subst hid
          simp only [true_and, true_or, iff_true]
          decide
        · have : esp_event_post wifi_connection IP_EVENT event_id = [] := by
            have hid2 : ¬ (IP_EVENT_STA_GOT_IP = event_id) := fun h => hid h.symm
            have hid3 : ¬ (IP_EVENT_STA_GOT_IP = ESP_EVENT_ANY_ID) := by decide
            have hwi : ¬ (WIFI_EVENT = IP_EVENT) := by decide
            simp [esp_event_post, wifi_connection, hwi, hid2, hid3]
          rw [this]
          simp [hid]
      · have : esp_event_post wifi_connection event_base event_id = [] := by
          have hw2 : ¬ (WIFI_EVENT = event_base) := fun h => hw h.symm
          have hi2 : ¬ (IP_EVENT = event_base) := fun h => hi h.symm
          simp [esp_event_post, wifi_connection, hw2, hi2]
        rw [this]
        simp [hw, hi]

end Q2_1
